import Mathlib

/-!
Shallow embedding of TaskForge (`src/taskforge.py`), a command-line task
manager with JSON persistence, a deadline-expiry sweep, and a per-task
stopwatch accumulator.

Modelling conventions:

* A task record (`Tarefa`) carries the persisted schema fields
  (`id, titulo, descricao, quantidade, prazo, concluida, criado_em,
  ultimo_tempo_seg, total_tempo_seg`).  `prazo` is kept as the stored
  ISO string (`Option String`), as in the JSON document.
* Python `datetime` instants are modelled as `Int`.  The three library
  functions the program uses — `datetime.strptime` with `DATE_FMT`,
  `datetime.fromisoformat` (returning `none` where Python raises), and
  `datetime.isoformat` — are abstract parameters collected in a
  `TimeModel`; theorems hold for every instantiation.
* `json.dump` followed by `json.load` is faithful on document content, so
  the save/parse part of the persistence round trip is the identity on the
  raw record list, and the load-time migration (`t.pop("tipo", None)`) is
  `popTipo` applied to each record.
* A `print` call is modelled as an emitted message; invoking
  `salvar_tarefas` is modelled as a `saved` flag.  Operations return the
  collection content that ends up stored.
-/

/-- JSON scalar values appearing in a persisted task record. -/
inductive JVal where
  | jnull
  | jbool (b : Bool)
  | jint (n : Int)
  | jstr (s : String)
deriving DecidableEq, Repr

/-- A raw persisted record: a JSON object as an ordered key/value list
(keys of a JSON object are unique). -/
abbrev JRec := List (String × JVal)

/-- Load-time migration of one record, `t.pop("tipo", None)`: the deprecated
`tipo` key is removed (at most one occurrence exists in a JSON object, so
removing the first is `dict.pop`). -/
def popTipo : JRec → JRec
  | [] => []
  | kv :: rest => if kv.1 = "tipo" then rest else kv :: popTipo rest

/-- `salvar_tarefas` serialises the collection into the backing document;
serialisation is faithful, so the document content is the record list. -/
def salvar_doc (tarefas : List JRec) : List JRec := tarefas

/-- The parse-and-migrate step of `carregar_tarefas` on an existing,
well-formed document: `json.load` yields the stored records and the
migration loop pops `tipo` from each. -/
def carregar_doc (doc : List JRec) : List JRec := doc.map popTipo

/-- A task with the schema fields written by `criar_tarefa_interativa`. -/
structure Tarefa where
  id : String
  titulo : String
  descricao : String
  quantidade : Option Int
  prazo : Option String
  concluida : Bool
  criado_em : String
  ultimo_tempo_seg : Int
  total_tempo_seg : Int
deriving DecidableEq, Repr

/-- Abstract model of the Python `datetime` operations used by the program:
`strptime` parses user input against `DATE_FMT` (`%Y-%m-%d %H:%M`),
`fromiso` is `datetime.fromisoformat` on stored strings (with `none` where
Python raises), `isoformat` renders an instant as its stored string. -/
structure TimeModel where
  strptime : String → Option Int
  fromiso : String → Option Int
  isoformat : Int → String

/-- Python `str.strip` (over the ASCII whitespace Python strips): drop
whitespace from both ends. -/
def pyStrip (s : String) : String :=
  ⟨(((s.data.dropWhile Char.isWhitespace).reverse).dropWhile Char.isWhitespace).reverse⟩

/-- Python `str.lower` (ASCII case folding). -/
def pyLower (s : String) : String :=
  ⟨s.data.map Char.toLower⟩

/-- `parse_prazo`: a falsy (empty) input means no deadline; otherwise the
stripped input is parsed with `strptime`, a `ValueError` becoming `None`. -/
def parse_prazo (strptime : String → Option Int) (s : String) : Option Int :=
  if s = "" then none else strptime (pyStrip s)

/-- The per-task deadline parse inside `remover_vencidas`: `t.get("prazo")`
is truthy only for a non-empty stored string, which is then fed to
`datetime.fromisoformat`, any failure leaving the parsed deadline unset. -/
def prazoDe (tm : TimeModel) (t : Tarefa) : Option Int :=
  match t.prazo with
  | none => none
  | some s => if s = "" then none else tm.fromiso s

/-- The removal test of `remover_vencidas`: a parsed deadline exists and is
less than or equal to the current instant. -/
def vencida (tm : TimeModel) (agora : Int) (t : Tarefa) : Bool :=
  match prazoDe tm t with
  | some p => decide (p ≤ agora)
  | none => false

/-- The specification's expiry test, in its own words: the stored deadline
is set, parseable, and less than or equal to the current time. -/
def vencidaSpec (tm : TimeModel) (agora : Int) (t : Tarefa) : Bool :=
  match t.prazo with
  | none => false
  | some s =>
    match tm.fromiso s with
    | some p => decide (p ≤ agora)
    | none => false

/-- The partition loop of `remover_vencidas`, returning
`(restantes, removidas)` in traversal order. -/
def particionar (tm : TimeModel) (agora : Int) : List Tarefa → List Tarefa × List Tarefa
  | [] => ([], [])
  | t :: rest =>
    let p := particionar tm agora rest
    if vencida tm agora t then (p.1, t :: p.2) else (t :: p.1, p.2)

/-- Result of one sweep: the stored collection afterwards, the removed
tasks, and whether `salvar_tarefas` was invoked. -/
structure SweepResult where
  stored : List Tarefa
  removidas : List Tarefa
  saved : Bool
deriving DecidableEq, Repr

/-- `remover_vencidas`: partition the loaded collection and save
`restantes` only when some task was removed (`if removidas:`). -/
def remover_vencidas (tm : TimeModel) (agora : Int) (tarefas : List Tarefa) : SweepResult :=
  let p := particionar tm agora tarefas
  if p.2.isEmpty then ⟨tarefas, p.2, false⟩ else ⟨p.1, p.2, true⟩

/-- Result of a mutation operation: the stored collection afterwards,
whether `salvar_tarefas` was invoked, and the messages printed. -/
structure OpResult where
  tarefas : List Tarefa
  saved : Bool
  msgs : List String
deriving DecidableEq, Repr

/-- Python `str.isdigit` (restricted to ASCII): non-empty and all digits. -/
def pyIsDigit (s : String) : Bool := !s.data.isEmpty && s.data.all Char.isDigit

/-- Python `int` applied to a digit string. -/
def pyInt (s : String) : Int :=
  ((s.data.foldl (fun n c => 10 * n + (c.toNat - 48)) 0 : Nat) : Int)

/-- Core of `criar_tarefa_interativa`, given the four stripped-at-read
inputs, the fresh uuid, the creation timestamp string, and the loaded
collection.  A validation failure leaves the collection untouched and saves
nothing. -/
def criar_tarefa (tm : TimeModel) (titulo_raw descricao_raw qtd_raw prazo_raw : String)
    (novo_id criado : String) (tarefas : List Tarefa) : OpResult :=
  let titulo := (pyStrip titulo_raw)
  if titulo = "" then ⟨tarefas, false, ["Título é obrigatório."]⟩
  else
    let qtd_s := (pyStrip qtd_raw)
    let prazo_s := (pyStrip prazo_raw)
    let prazo := parse_prazo tm.strptime prazo_s
    if prazo_s != "" && prazo.isNone then ⟨tarefas, false, ["Formato de data inválido."]⟩
    else
      ⟨tarefas ++ [{ id := novo_id, titulo := titulo, descricao := (pyStrip descricao_raw),
                     quantidade := if pyIsDigit qtd_s then some (pyInt qtd_s) else none,
                     prazo := prazo.map tm.isoformat, concluida := false,
                     criado_em := criado, ultimo_tempo_seg := 0, total_tempo_seg := 0 }],
       true, ["Tarefa criada: " ++ novo_id.take 8]⟩

/-- The raw answers typed at the five prompts of
`editar_tarefa_interativa`. -/
structure EditInputs where
  titulo : String
  descricao : String
  qtd : String
  prazo : String
  concluir : String
deriving DecidableEq, Repr

/-- Edit prompt 1: a non-empty stripped answer replaces the title. -/
def edita_titulo (s : String) (t : Tarefa) : Tarefa :=
  if (pyStrip s) != "" then { t with titulo := (pyStrip s) } else t

/-- Edit prompt 2: a non-empty stripped answer replaces the description. -/
def edita_descricao (s : String) (t : Tarefa) : Tarefa :=
  if (pyStrip s) != "" then { t with descricao := (pyStrip s) } else t

/-- Edit prompt 3: an empty answer keeps the quantity, a digit string is
parsed, and any other answer resets the quantity to `None`. -/
def edita_quantidade (s : String) (t : Tarefa) : Tarefa :=
  if (pyStrip s) = "" then t
  else if pyIsDigit (pyStrip s) then { t with quantidade := some (pyInt (pyStrip s)) }
  else { t with quantidade := none }

/-- Edit prompt 4: a non-empty answer is parsed with `parse_prazo`; only a
successful parse replaces the stored deadline. -/
def edita_prazo (tm : TimeModel) (s : String) (t : Tarefa) : Tarefa :=
  if (pyStrip s) != "" then
    match parse_prazo tm.strptime (pyStrip s) with
    | some p => { t with prazo := some (tm.isoformat p) }
    | none => t
  else t

/-- Edit prompt 5: completion is set from the answer alone
(`in ("s", "sim")` after strip and lower). -/
def edita_concluida (s : String) (t : Tarefa) : Tarefa :=
  { t with concluida := (pyLower (pyStrip s)) == "s" || (pyLower (pyStrip s)) == "sim" }

/-- The field-update phase of `editar_tarefa_interativa`, prompts applied in
source order. -/
def aplicar_edicao (tm : TimeModel) (inp : EditInputs) (t : Tarefa) : Tarefa :=
  edita_concluida inp.concluir
    (edita_prazo tm inp.prazo
      (edita_quantidade inp.qtd
        (edita_descricao inp.descricao
          (edita_titulo inp.titulo t))))

/-- The replace-by-id loop of `editar_tarefa_interativa` (first id match is
replaced, then `break`). -/
def substituir (t : Tarefa) : List Tarefa → List Tarefa
  | [] => []
  | x :: rest => if x.id = t.id then t :: rest else x :: substituir t rest

/-- The read-modify-write tail of `editar_tarefa_interativa`: reload,
replace by id, save unconditionally, report success. -/
def editar_rmw (t : Tarefa) (tarefas : List Tarefa) : OpResult :=
  ⟨substituir t tarefas, true, ["Tarefa atualizada."]⟩

/-- The confirmed branch of `excluir_tarefa_interativa`: reload, drop every
record with the selected id, save unconditionally, report success. -/
def excluir_rmw (sel : Tarefa) (tarefas : List Tarefa) : OpResult :=
  ⟨tarefas.filter (fun x => x.id != sel.id), true, ["Tarefa excluída."]⟩

/-- `marcar_tarefa` after selection: toggle the first id match and save;
fall off the loop silently when the id is gone. -/
def marcar_rmw (tid : String) : List Tarefa → OpResult
  | [] => ⟨[], false, []⟩
  | x :: rest =>
    if x.id = tid then
      ⟨{ x with concluida := !x.concluida } :: rest, true, ["Estado alterado."]⟩
    else
      let r := marcar_rmw tid rest
      ⟨x :: r.tarefas, r.saved, r.msgs⟩

/-- The accumulation step of `iniciar_cronometro`: on the first id match set
`ultimo_tempo_seg`, add the duration to `total_tempo_seg`, save, report;
silently do nothing when the id is gone. -/
def acumular (tid : String) (dur : Int) : List Tarefa → OpResult
  | [] => ⟨[], false, []⟩
  | x :: rest =>
    if x.id = tid then
      ⟨{ x with ultimo_tempo_seg := dur, total_tempo_seg := x.total_tempo_seg + dur } :: rest,
       true, ["Cronômetro salvo."]⟩
    else
      let r := acumular tid dur rest
      ⟨x :: r.tarefas, r.saved, r.msgs⟩

/-- Several stopwatch sessions in sequence on the same task id. -/
def acumularN (tid : String) (ds : List Int) (tarefas : List Tarefa) : List Tarefa :=
  ds.foldl (fun ts d => (acumular tid d ts).tarefas) tarefas

/-- The six core collection transformers, as invoked from the menu loop. -/
inductive Op where
  | criar (nova : Tarefa)
  | editar (tm : TimeModel) (inp : EditInputs) (sel : Tarefa)
  | excluir (sel : Tarefa)
  | marcar (sel : Tarefa)
  | varrer (tm : TimeModel) (agora : Int)
  | cronometrar (sel : Tarefa) (dur : Int)

/-- Effect of one operation on the stored collection. -/
def Op.apply : Op → List Tarefa → List Tarefa
  | .criar nova, ts => ts ++ [nova]
  | .editar tm inp sel, ts => (editar_rmw (aplicar_edicao tm inp sel) ts).tarefas
  | .excluir sel, ts => (excluir_rmw sel ts).tarefas
  | .marcar sel, ts => (marcar_rmw sel.id ts).tarefas
  | .varrer tm agora, ts => (remover_vencidas tm agora ts).stored
  | .cronometrar sel dur, ts => (acumular sel.id dur ts).tarefas

/-- Side conditions under which each operation is actually invoked: Create
receives a fresh uuid (globally unique per the schema), Edit replaces a task
selected from the same collection, and stopwatch durations are whole
non-negative seconds. -/
def Op.wf : Op → List Tarefa → Prop
  | .criar nova, ts => nova.id ∉ ts.map Tarefa.id
  | .editar _ _ sel, ts => sel ∈ ts
  | .cronometrar _ dur, _ => 0 ≤ dur
  | _, _ => True

/-- A concrete datetime model used for evaluating theorems on inputs. -/
def tmFix : TimeModel where
  strptime := fun s => if s = "2020-01-01 00:00" then some 0 else none
  fromiso := fun s => if s = "2020-01-01T00:00:00" then some 0 else none
  isoformat := fun _ => "2020-01-01T00:00:00"

/-- A sample task with an already-passed stored deadline. -/
def tarefaA : Tarefa where
  id := "aaaa1111"
  titulo := "Buy milk"
  descricao := ""
  quantidade := none
  prazo := some "2020-01-01T00:00:00"
  concluida := false
  criado_em := "c"
  ultimo_tempo_seg := 0
  total_tempo_seg := 7

/-- A sample task with no deadline. -/
def tarefaB : Tarefa where
  id := "bbbb2222"
  titulo := "Write report"
  descricao := ""
  quantidade := some 3
  prazo := none
  concluida := false
  criado_em := "c"
  ultimo_tempo_seg := 0
  total_tempo_seg := 0

/-- The partition loop computes the two order-preserving filters of the
loaded collection. -/
theorem particionar_eq (tm : TimeModel) (agora : Int) (ts : List Tarefa) :
    particionar tm agora ts =
      (ts.filter (fun t => !vencida tm agora t), ts.filter (vencida tm agora)) := by
  induction ts with
  | nil => rfl
  | cons t rest ih =>
    simp only [particionar, ih]
    cases h : vencida tm agora t <;> simp [List.filter_cons, h]

/-- A task the code removes is one the specification calls expired. -/
theorem vencida_le_spec (tm : TimeModel) (agora : Int) (t : Tarefa) :
    vencida tm agora t = true → vencidaSpec tm agora t = true := by
  unfold vencida vencidaSpec prazoDe
  cases t.prazo with
  | none => simp
  | some s =>
    by_cases hs : s = "" <;> simp [hs]

/-- When `fromisoformat` rejects the empty string (as Python's does), the
code's removal test coincides with the specification's expiry test. -/
theorem vencida_eq_spec (tm : TimeModel) (agora : Int)
    (hempty : tm.fromiso "" = none) (t : Tarefa) :
    vencida tm agora t = vencidaSpec tm agora t := by
  unfold vencida vencidaSpec prazoDe
  cases t.prazo with
  | none => rfl
  | some s =>
    by_cases hs : s = ""
    · subst hs; simp [hempty]
    · simp [hs]

/-- Closed form of one sweep in terms of the removal test. -/
theorem remover_vencidas_eq (tm : TimeModel) (agora : Int) (tarefas : List Tarefa) :
    remover_vencidas tm agora tarefas =
      ⟨if (tarefas.filter (vencida tm agora)).isEmpty then tarefas
          else tarefas.filter (fun t => !vencida tm agora t),
        tarefas.filter (vencida tm agora),
        !(tarefas.filter (vencida tm agora)).isEmpty⟩ := by
  unfold remover_vencidas
  rw [particionar_eq]
  by_cases h : (tarefas.filter (vencida tm agora)).isEmpty <;> simp [h]

/-- The sweep never stores a task it was not given. -/
theorem stored_subset (tm : TimeModel) (agora : Int) (tarefas : List Tarefa) :
    ∀ t ∈ (remover_vencidas tm agora tarefas).stored, t ∈ tarefas := by
  rw [remover_vencidas_eq]
  by_cases h : (tarefas.filter (vencida tm agora)).isEmpty <;> simp [h]
  intro t ht _
  exact ht

/-- C1: one invocation of the expiry sweep stores exactly the tasks that are
not expired (deadline unset, unparseable, or strictly in the future), in
their original order and unmodified, and removes exactly the tasks whose
deadline is set, parseable, and less than or equal to the current time;
stated for any `fromisoformat` model that rejects the empty string, as
Python's does. -/
theorem C1_expiry_sweep (tm : TimeModel) (agora : Int) (tarefas : List Tarefa)
    (hempty : tm.fromiso "" = none) :
    (remover_vencidas tm agora tarefas).stored
        = tarefas.filter (fun t => !vencidaSpec tm agora t) ∧
    (remover_vencidas tm agora tarefas).removidas
        = tarefas.filter (vencidaSpec tm agora) ∧
    (∀ t ∈ tarefas, vencidaSpec tm agora t = true →
        t ∉ (remover_vencidas tm agora tarefas).stored) ∧
    (∀ t ∈ tarefas, vencidaSpec tm agora t = false →
        t ∈ (remover_vencidas tm agora tarefas).stored) := by
  have hcong : ∀ t ∈ tarefas, vencida tm agora t = vencidaSpec tm agora t :=
    fun t _ => vencida_eq_spec tm agora hempty t
  have h1 : tarefas.filter (vencida tm agora) = tarefas.filter (vencidaSpec tm agora) :=
    List.filter_congr hcong
  have h2 : tarefas.filter (fun t => !vencida tm agora t)
      = tarefas.filter (fun t => !vencidaSpec tm agora t) :=
    List.filter_congr (fun t ht => by rw [hcong t ht])
  have hstored : (remover_vencidas tm agora tarefas).stored
      = tarefas.filter (fun t => !vencidaSpec tm agora t) := by
    rw [remover_vencidas_eq]
    by_cases h : (tarefas.filter (vencida tm agora)).isEmpty
    · have hnil : tarefas.filter (vencidaSpec tm agora) = [] := by
        rw [← h1]; exact List.isEmpty_iff.mp h
      have hall : ∀ t ∈ tarefas, vencidaSpec tm agora t = false := by
        intro t ht
        by_contra hc
        have : t ∈ tarefas.filter (vencidaSpec tm agora) :=
          List.mem_filter.mpr ⟨ht, by simpa using hc⟩
        simp [hnil] at this
      simp only [h, if_true]
      symm
      refine List.filter_eq_self.mpr ?_
      intro t ht
      simp [hall t ht]
    · simp only [h, if_false]
      exact h2
  refine ⟨hstored, by rw [remover_vencidas_eq]; simpa using h1, ?_, ?_⟩
  · intro t ht hv hmem
    rw [hstored] at hmem
    have := (List.mem_filter.mp hmem).2
    simp [hv] at this
  · intro t ht hv
    rw [hstored]
    exact List.mem_filter.mpr ⟨ht, by simp [hv]⟩

/-- Witness for C1 on a concrete collection: with the clock at 100, the task
with stored deadline instant 0 is removed and the task without a deadline
survives. -/
theorem C1_expiry_sweep_witness :
    (remover_vencidas tmFix 100 [tarefaA, tarefaB]).stored
        = List.filter (fun t => !vencidaSpec tmFix 100 t) [tarefaA, tarefaB] ∧
    tarefaA ∉ (remover_vencidas tmFix 100 [tarefaA, tarefaB]).stored ∧
    tarefaB ∈ (remover_vencidas tmFix 100 [tarefaA, tarefaB]).stored := by
  have h := C1_expiry_sweep tmFix 100 [tarefaA, tarefaB] (by decide)
  exact ⟨h.1, h.2.2.1 tarefaA (by decide) (by decide), h.2.2.2 tarefaB (by decide) (by decide)⟩

/-- C8: when no task in the collection is expired, the sweep invokes no save
and the stored document is untouched. -/
theorem C8_no_write (tm : TimeModel) (agora : Int) (tarefas : List Tarefa)
    (h : ∀ t ∈ tarefas, vencidaSpec tm agora t = false) :
    (remover_vencidas tm agora tarefas).saved = false ∧
    (remover_vencidas tm agora tarefas).stored = tarefas := by
  have hv : ∀ t ∈ tarefas, ¬ vencida tm agora t = true := by
    intro t ht hc
    have := vencida_le_spec tm agora t hc
    rw [h t ht] at this
    exact Bool.false_ne_true this
  have hnil : tarefas.filter (vencida tm agora) = [] := by
    simpa using List.filter_eq_nil_iff.mpr hv
  rw [remover_vencidas_eq]
  simp [hnil]

/-- Witness for C8: a singleton collection whose task has no deadline is
swept without any write. -/
theorem C8_no_write_witness :
    (remover_vencidas tmFix 0 [tarefaB]).saved = false ∧
    (remover_vencidas tmFix 0 [tarefaB]).stored = [tarefaB] :=
  C8_no_write tmFix 0 [tarefaB] (by decide)

/-- Under unique keys, popping `tipo` is the order-preserving removal of
exactly the `tipo` entries. -/
theorem popTipo_eq_filter {r : JRec} (h : (r.map Prod.fst).Nodup) :
    popTipo r = r.filter (fun kv => kv.1 != "tipo") := by
  induction r with
  | nil => rfl
  | cons kv rest ih =>
    simp only [List.map_cons, List.nodup_cons] at h
    by_cases hk : kv.1 = "tipo"
    · simp only [popTipo, hk, if_true, List.filter_cons]
      have : (kv.1 != "tipo") = false := by simp [hk]
      simp only [hk, bne_self_eq_false]
      symm
      refine List.filter_eq_self.mpr ?_
      intro a ha
      have hne : a.1 ≠ "tipo" := by
        intro he
        have hm : a.1 ∈ List.map Prod.fst rest := List.mem_map_of_mem Prod.fst ha
        rw [he, ← hk] at hm
        exact h.1 hm
      simpa using hne
    · simp only [popTipo, hk, if_false, List.filter_cons]
      have : (kv.1 != "tipo") = true := by simpa using hk
      simp [this, ih h.2]

/-- C3 as stated is refuted: a record carrying the unknown field `foo`
keeps that field across the save-then-load round trip (only `tipo` is
dropped). -/
theorem C3_roundtrip_counterexample :
    carregar_doc (salvar_doc [[("id", JVal.jstr "x"), ("foo", JVal.jint 1)]])
      = [[("id", JVal.jstr "x"), ("foo", JVal.jint 1)]] := by decide

/-- C3 (amended): saving and then loading returns every record with exactly
the deprecated `tipo` field stripped — all other fields, whether in the
schema or not, survive unmodified and in order (record keys are unique, as
in any JSON object). -/
theorem C3_roundtrip_amended (tarefas : List JRec)
    (h : ∀ r ∈ tarefas, (r.map Prod.fst).Nodup) :
    carregar_doc (salvar_doc tarefas)
      = tarefas.map (fun r => r.filter (fun kv => kv.1 != "tipo")) := by
  unfold carregar_doc salvar_doc
  exact List.map_congr_left (fun r hr => popTipo_eq_filter (h r hr))

/-- Witness for the amended C3: a record with a `tipo` field and an unknown
`foo` field loses exactly `tipo`. -/
theorem C3_roundtrip_amended_witness :
    carregar_doc (salvar_doc [[("tipo", JVal.jstr "t"), ("foo", JVal.jint 1)]])
      = [[("foo", JVal.jint 1)]] :=
  (C3_roundtrip_amended [[("tipo", JVal.jstr "t"), ("foo", JVal.jint 1)]] (by decide)).trans
    (by decide)

/-- Replacing a task whose id is absent changes nothing. -/
theorem substituir_no_match {sel : Tarefa} {ts : List Tarefa}
    (h : sel.id ∉ ts.map Tarefa.id) : substituir sel ts = ts := by
  induction ts with
  | nil => rfl
  | cons x rest ih =>
    simp only [List.map_cons, List.mem_cons] at h
    push_neg at h
    have hx : ¬ x.id = sel.id := fun he => h.1 he.symm
    simp only [substituir, hx, if_false]
    rw [ih h.2]

/-- Toggling a task whose id is absent saves nothing and prints nothing. -/
theorem marcar_no_match {tid : String} {ts : List Tarefa}
    (h : tid ∉ ts.map Tarefa.id) : marcar_rmw tid ts = ⟨ts, false, []⟩ := by
  induction ts with
  | nil => rfl
  | cons x rest ih =>
    simp only [List.map_cons, List.mem_cons] at h
    push_neg at h
    have hx : ¬ x.id = tid := fun he => h.1 he.symm
    simp only [marcar_rmw, hx, if_false, ih h.2]

/-- C2 as stated is refuted: with the selected id absent from the reloaded
collection, Edit still invokes a save (writing the unchanged collection) and
prints its normal success message instead of a not-found report. -/
theorem C2_not_found_counterexample :
    tarefaA.id ∉ [tarefaB].map Tarefa.id ∧
    (editar_rmw tarefaA [tarefaB]).saved = true ∧
    (editar_rmw tarefaA [tarefaB]).tarefas = [tarefaB] ∧
    (editar_rmw tarefaA [tarefaB]).msgs = ["Tarefa atualizada."] := by decide

/-- C2 (amended): when the selected task's id is not present in the freshly
reloaded collection, the stored collection's content is unchanged for Edit,
Delete, and Toggle-Complete; but only Toggle-Complete skips the save — Edit
and Delete still invoke a save of the unchanged collection and print their
usual success messages — and none of the three reports "not found" at this
step. -/
theorem C2_not_found_amended (sel : Tarefa) (tarefas : List Tarefa)
    (h : sel.id ∉ tarefas.map Tarefa.id) :
    (editar_rmw sel tarefas).tarefas = tarefas ∧
    (editar_rmw sel tarefas).saved = true ∧
    (excluir_rmw sel tarefas).tarefas = tarefas ∧
    (excluir_rmw sel tarefas).saved = true ∧
    marcar_rmw sel.id tarefas = ⟨tarefas, false, []⟩ := by
  refine ⟨substituir_no_match h, rfl, ?_, rfl, marcar_no_match h⟩
  refine List.filter_eq_self.mpr ?_
  intro x hx
  have hne : x.id ≠ sel.id := by
    intro he
    exact h (he ▸ List.mem_map_of_mem Tarefa.id hx)
  simpa using hne

/-- Witness for the amended C2 on a concrete collection missing the
selected id. -/
theorem C2_not_found_amended_witness :
    (editar_rmw tarefaA [tarefaB]).tarefas = [tarefaB] ∧
    (editar_rmw tarefaA [tarefaB]).saved = true ∧
    (excluir_rmw tarefaA [tarefaB]).tarefas = [tarefaB] ∧
    (excluir_rmw tarefaA [tarefaB]).saved = true ∧
    marcar_rmw tarefaA.id [tarefaB] = ⟨[tarefaB], false, []⟩ :=
  C2_not_found_amended tarefaA [tarefaB] (by decide)

/-- Accumulating on the first occurrence of an id updates exactly that
record, saves, and reports. -/
theorem acumular_first (tid : String) (dur : Int) (pre post : List Tarefa) (x : Tarefa)
    (hx : x.id = tid) (hpre : tid ∉ pre.map Tarefa.id) :
    acumular tid dur (pre ++ x :: post) =
      ⟨pre ++ { x with ultimo_tempo_seg := dur,
                       total_tempo_seg := x.total_tempo_seg + dur } :: post,
        true, ["Cronômetro salvo."]⟩ := by
  induction pre with
  | nil => simp [acumular, hx]
  | cons p ps ih =>
    simp only [List.map_cons, List.mem_cons] at hpre
    push_neg at hpre
    have hp : ¬ p.id = tid := fun he => hpre.1 he.symm
    simp only [List.cons_append, acumular, hp, if_false, List.append_eq, ih hpre.2]

/-- `getLastD` agrees with `getLast` on a non-empty list. -/
theorem getLastD_of_ne_nil {α : Type} (l : List α) (hne : l ≠ []) (d : α) :
    l.getLastD d = l.getLast hne := by
  rw [List.getLastD_eq_getLast?, List.getLast?_eq_getLast l hne]
  rfl

/-- Folding several sessions over the first occurrence of an id: the last
session lands in `ultimo_tempo_seg` and the sum is added to
`total_tempo_seg`, everything else untouched. -/
theorem acumularN_first (tid : String) (ds : List Int) :
    ∀ (pre post : List Tarefa) (x : Tarefa), x.id = tid → tid ∉ pre.map Tarefa.id →
      acumularN tid ds (pre ++ x :: post) =
        pre ++ { x with ultimo_tempo_seg := ds.getLastD x.ultimo_tempo_seg,
                        total_tempo_seg := x.total_tempo_seg + ds.sum } :: post := by
  induction ds with
  | nil =>
    intro pre post x hx hpre
    simp [acumularN]
  | cons d rest ih =>
    intro pre post x hx hpre
    have hstep : acumularN tid (d :: rest) (pre ++ x :: post)
        = acumularN tid rest ((acumular tid d (pre ++ x :: post)).tarefas) := rfl
    rw [hstep, acumular_first tid d pre post x hx hpre]
    rw [ih pre post { x with ultimo_tempo_seg := d,
                             total_tempo_seg := x.total_tempo_seg + d } hx hpre]
    cases rest with
    | nil => simp
    | cons r rs =>
      simp [add_assoc, List.getLast?_cons_cons]
      rw [List.getLast?_eq_getLast (r :: rs) (List.cons_ne_nil r rs)]
      rfl

/-- C4: with task `x` the first holder of id `tid` in the collection,
accumulating a non-negative duration `dur` sets `ultimo_tempo_seg = dur` and
`total_tempo_seg = T + dur` on that task, leaves every other field and every
other task unchanged, and saves; accumulating a sequence of non-negative
durations yields `total_tempo_seg = T + sum` and `ultimo_tempo_seg` equal to
the last duration. -/
theorem C4_timer_accumulation (tid : String) (pre post : List Tarefa) (x : Tarefa)
    (hx : x.id = tid) (hpre : tid ∉ pre.map Tarefa.id) :
    (∀ dur : Int, 0 ≤ dur →
       (acumular tid dur (pre ++ x :: post)).tarefas =
         pre ++ { x with ultimo_tempo_seg := dur,
                         total_tempo_seg := x.total_tempo_seg + dur } :: post ∧
       (acumular tid dur (pre ++ x :: post)).saved = true) ∧
    (∀ ds : List Int, (∀ d ∈ ds, 0 ≤ d) → ∀ hne : ds ≠ [],
       acumularN tid ds (pre ++ x :: post) =
         pre ++ { x with ultimo_tempo_seg := ds.getLast hne,
                         total_tempo_seg := x.total_tempo_seg + ds.sum } :: post) := by
  constructor
  · intro dur _
    rw [acumular_first tid dur pre post x hx hpre]
    exact ⟨rfl, rfl⟩
  · intro ds _ hne
    rw [acumularN_first tid ds pre post x hx hpre,
        getLastD_of_ne_nil ds hne x.ultimo_tempo_seg]

/-- Witness for C4: one 5-second session, then sessions of 2 and 3 seconds,
on the concrete two-task collection. -/
theorem C4_timer_accumulation_witness :
    (acumular "bbbb2222" 5 [tarefaA, tarefaB]).tarefas
      = [tarefaA, { tarefaB with ultimo_tempo_seg := 5, total_tempo_seg := 5 }] ∧
    acumularN "bbbb2222" [2, 3] [tarefaA, tarefaB]
      = [tarefaA, { tarefaB with ultimo_tempo_seg := 3, total_tempo_seg := 5 }] := by
  have h := C4_timer_accumulation "bbbb2222" [tarefaA] [] tarefaB (by decide) (by decide)
  constructor
  · exact ((h.1 5 (by decide)).1).trans (by decide)
  · exact (h.2 [2, 3] (by decide) (by decide)).trans (by decide)

/-- Editing the title leaves the id unchanged. -/
@[simp] theorem edita_titulo_id (s : String) (t : Tarefa) :
    (edita_titulo s t).id = t.id := by
  unfold edita_titulo; split <;> rfl

/-- Editing the title leaves the description unchanged. -/
@[simp] theorem edita_titulo_descricao (s : String) (t : Tarefa) :
    (edita_titulo s t).descricao = t.descricao := by
  unfold edita_titulo; split <;> rfl

/-- Editing the title leaves the quantity unchanged. -/
@[simp] theorem edita_titulo_quantidade (s : String) (t : Tarefa) :
    (edita_titulo s t).quantidade = t.quantidade := by
  unfold edita_titulo; split <;> rfl

/-- Editing the title leaves the deadline unchanged. -/
@[simp] theorem edita_titulo_prazo (s : String) (t : Tarefa) :
    (edita_titulo s t).prazo = t.prazo := by
  unfold edita_titulo; split <;> rfl

/-- Editing the title leaves the accumulated total unchanged. -/
@[simp] theorem edita_titulo_total (s : String) (t : Tarefa) :
    (edita_titulo s t).total_tempo_seg = t.total_tempo_seg := by
  unfold edita_titulo; split <;> rfl

/-- Editing the description leaves the id unchanged. -/
@[simp] theorem edita_descricao_id (s : String) (t : Tarefa) :
    (edita_descricao s t).id = t.id := by
  unfold edita_descricao; split <;> rfl

/-- Editing the description leaves the title unchanged. -/
@[simp] theorem edita_descricao_titulo (s : String) (t : Tarefa) :
    (edita_descricao s t).titulo = t.titulo := by
  unfold edita_descricao; split <;> rfl

/-- Editing the description leaves the quantity unchanged. -/
@[simp] theorem edita_descricao_quantidade (s : String) (t : Tarefa) :
    (edita_descricao s t).quantidade = t.quantidade := by
  unfold edita_descricao; split <;> rfl

/-- Editing the description leaves the deadline unchanged. -/
@[simp] theorem edita_descricao_prazo (s : String) (t : Tarefa) :
    (edita_descricao s t).prazo = t.prazo := by
  unfold edita_descricao; split <;> rfl

/-- Editing the description leaves the accumulated total unchanged. -/
@[simp] theorem edita_descricao_total (s : String) (t : Tarefa) :
    (edita_descricao s t).total_tempo_seg = t.total_tempo_seg := by
  unfold edita_descricao; split <;> rfl

/-- Editing the quantity leaves the id unchanged. -/
@[simp] theorem edita_quantidade_id (s : String) (t : Tarefa) :
    (edita_quantidade s t).id = t.id := by
  unfold edita_quantidade; split <;> (try split) <;> rfl

/-- Editing the quantity leaves the title unchanged. -/
@[simp] theorem edita_quantidade_titulo (s : String) (t : Tarefa) :
    (edita_quantidade s t).titulo = t.titulo := by
  unfold edita_quantidade; split <;> (try split) <;> rfl

/-- Editing the quantity leaves the description unchanged. -/
@[simp] theorem edita_quantidade_descricao (s : String) (t : Tarefa) :
    (edita_quantidade s t).descricao = t.descricao := by
  unfold edita_quantidade; split <;> (try split) <;> rfl

/-- Editing the quantity leaves the deadline unchanged. -/
@[simp] theorem edita_quantidade_prazo (s : String) (t : Tarefa) :
    (edita_quantidade s t).prazo = t.prazo := by
  unfold edita_quantidade; split <;> (try split) <;> rfl

/-- Editing the quantity leaves the accumulated total unchanged. -/
@[simp] theorem edita_quantidade_total (s : String) (t : Tarefa) :
    (edita_quantidade s t).total_tempo_seg = t.total_tempo_seg := by
  unfold edita_quantidade; split <;> (try split) <;> rfl

/-- Editing the deadline leaves the id unchanged. -/
@[simp] theorem edita_prazo_id (tm : TimeModel) (s : String) (t : Tarefa) :
    (edita_prazo tm s t).id = t.id := by
  unfold edita_prazo; split <;> (try split) <;> rfl

/-- Editing the deadline leaves the title unchanged. -/
@[simp] theorem edita_prazo_titulo (tm : TimeModel) (s : String) (t : Tarefa) :
    (edita_prazo tm s t).titulo = t.titulo := by
  unfold edita_prazo; split <;> (try split) <;> rfl

/-- Editing the deadline leaves the description unchanged. -/
@[simp] theorem edita_prazo_descricao (tm : TimeModel) (s : String) (t : Tarefa) :
    (edita_prazo tm s t).descricao = t.descricao := by
  unfold edita_prazo; split <;> (try split) <;> rfl

/-- Editing the deadline leaves the quantity unchanged. -/
@[simp] theorem edita_prazo_quantidade (tm : TimeModel) (s : String) (t : Tarefa) :
    (edita_prazo tm s t).quantidade = t.quantidade := by
  unfold edita_prazo; split <;> (try split) <;> rfl

/-- Editing the deadline leaves the accumulated total unchanged. -/
@[simp] theorem edita_prazo_total (tm : TimeModel) (s : String) (t : Tarefa) :
    (edita_prazo tm s t).total_tempo_seg = t.total_tempo_seg := by
  unfold edita_prazo; split <;> (try split) <;> rfl

/-- Setting the completion flag leaves the id unchanged. -/
@[simp] theorem edita_concluida_id (s : String) (t : Tarefa) :
    (edita_concluida s t).id = t.id := rfl

/-- Setting the completion flag leaves the title unchanged. -/
@[simp] theorem edita_concluida_titulo (s : String) (t : Tarefa) :
    (edita_concluida s t).titulo = t.titulo := rfl

/-- Setting the completion flag leaves the description unchanged. -/
@[simp] theorem edita_concluida_descricao (s : String) (t : Tarefa) :
    (edita_concluida s t).descricao = t.descricao := rfl

/-- Setting the completion flag leaves the quantity unchanged. -/
@[simp] theorem edita_concluida_quantidade (s : String) (t : Tarefa) :
    (edita_concluida s t).quantidade = t.quantidade := rfl

/-- Setting the completion flag leaves the deadline unchanged. -/
@[simp] theorem edita_concluida_prazo (s : String) (t : Tarefa) :
    (edita_concluida s t).prazo = t.prazo := rfl

/-- Setting the completion flag leaves the accumulated total unchanged. -/
@[simp] theorem edita_concluida_total (s : String) (t : Tarefa) :
    (edita_concluida s t).total_tempo_seg = t.total_tempo_seg := rfl

/-- The edit phase never changes a task's id. -/
theorem aplicar_edicao_id (tm : TimeModel) (inp : EditInputs) (t : Tarefa) :
    (aplicar_edicao tm inp t).id = t.id := by
  simp [aplicar_edicao]

/-- The edit phase never changes a task's accumulated total. -/
theorem aplicar_edicao_total (tm : TimeModel) (inp : EditInputs) (t : Tarefa) :
    (aplicar_edicao tm inp t).total_tempo_seg = t.total_tempo_seg := by
  simp [aplicar_edicao]

/-- An empty stripped title answer keeps the whole record. -/
theorem edita_titulo_keep {s : String} (h : (pyStrip s) = "") (t : Tarefa) :
    edita_titulo s t = t := by
  unfold edita_titulo; simp [h]

/-- An empty stripped description answer keeps the whole record. -/
theorem edita_descricao_keep {s : String} (h : (pyStrip s) = "") (t : Tarefa) :
    edita_descricao s t = t := by
  unfold edita_descricao; simp [h]

/-- An empty stripped quantity answer keeps the whole record. -/
theorem edita_quantidade_keep {s : String} (h : (pyStrip s) = "") (t : Tarefa) :
    edita_quantidade s t = t := by
  unfold edita_quantidade; simp [h]

/-- A digit-string quantity answer stores the parsed integer. -/
theorem edita_quantidade_digit {s : String} (h : pyIsDigit (pyStrip s) = true) (t : Tarefa) :
    (edita_quantidade s t).quantidade = some (pyInt (pyStrip s)) := by
  have hne : ¬ (pyStrip s) = "" := by
    intro he
    rw [he] at h
    exact absurd h (by decide)
  unfold edita_quantidade
  simp [hne, h]

/-- A non-empty, non-digit quantity answer resets the quantity to unset. -/
theorem edita_quantidade_invalid {s : String} (h1 : (pyStrip s) ≠ "")
    (h2 : pyIsDigit (pyStrip s) = false) (t : Tarefa) :
    (edita_quantidade s t).quantidade = none := by
  unfold edita_quantidade
  simp [h1, h2]

/-- An empty stripped deadline answer keeps the whole record. -/
theorem edita_prazo_keep_empty {tm : TimeModel} {s : String} (h : (pyStrip s) = "") (t : Tarefa) :
    edita_prazo tm s t = t := by
  unfold edita_prazo; simp [h]

/-- A non-empty deadline answer that fails to parse keeps the whole record. -/
theorem edita_prazo_keep_unparsed {tm : TimeModel} {s : String}
    (h1 : (pyStrip s) ≠ "") (h2 : parse_prazo tm.strptime (pyStrip s) = none) (t : Tarefa) :
    edita_prazo tm s t = t := by
  unfold edita_prazo
  simp [h1, h2]

/-- The deadline prompt can never unset a set deadline. -/
theorem edita_prazo_ne_none {tm : TimeModel} {s : String} {t : Tarefa}
    (h : t.prazo ≠ none) : (edita_prazo tm s t).prazo ≠ none := by
  unfold edita_prazo
  split
  · split
    · simp
    · exact h
  · exact h

/-- C5: Create with an empty (post-trim) title mutates nothing, saves
nothing, and signals the validation error; Create with a non-empty deadline
input that does not parse against the fixed format mutates nothing and
saves nothing. -/
theorem C5_create_validation (tm : TimeModel)
    (titulo_raw descricao_raw qtd_raw prazo_raw novo_id criado : String)
    (tarefas : List Tarefa) :
    ((pyStrip titulo_raw) = "" →
       criar_tarefa tm titulo_raw descricao_raw qtd_raw prazo_raw novo_id criado tarefas
         = ⟨tarefas, false, ["Título é obrigatório."]⟩) ∧
    ((pyStrip prazo_raw) ≠ "" → parse_prazo tm.strptime (pyStrip prazo_raw) = none →
       (criar_tarefa tm titulo_raw descricao_raw qtd_raw prazo_raw novo_id criado
           tarefas).tarefas = tarefas ∧
       (criar_tarefa tm titulo_raw descricao_raw qtd_raw prazo_raw novo_id criado
           tarefas).saved = false) := by
  constructor
  · intro h
    unfold criar_tarefa
    simp [h]
  · intro h1 h2
    unfold criar_tarefa
    by_cases ht : (pyStrip titulo_raw) = ""
    · simp [ht]
    · simp [ht, h1, h2]

/-- Witness for C5: a whitespace title aborts with the validation message;
a malformed deadline aborts with no mutation. -/
theorem C5_create_validation_witness :
    criar_tarefa tmFix "  " "" "" "" "n1" "c1" []
      = ⟨[], false, ["Título é obrigatório."]⟩ ∧
    (criar_tarefa tmFix "T" "" "" "2020-13-99" "n1" "c1" []).tarefas = [] ∧
    (criar_tarefa tmFix "T" "" "" "2020-13-99" "n1" "c1" []).saved = false := by
  refine ⟨(C5_create_validation tmFix "  " "" "" "" "n1" "c1" []).1 (by decide), ?_⟩
  exact (C5_create_validation tmFix "T" "" "" "2020-13-99" "n1" "c1" []).2
    (by decide) (by decide)

/-- C7: in the edit phase, an empty (post-trim) answer for title,
description, quantity, or deadline keeps the current value, while the
completion status is always set from the final answer alone — `true`
exactly for an affirmative `s`/`sim` (stripped, lowered), with no way to
keep the prior completion state. -/
theorem C7_edit_fields (tm : TimeModel) (inp : EditInputs) (t : Tarefa) :
    ((pyStrip inp.titulo) = "" → (aplicar_edicao tm inp t).titulo = t.titulo) ∧
    ((pyStrip inp.descricao) = "" → (aplicar_edicao tm inp t).descricao = t.descricao) ∧
    ((pyStrip inp.qtd) = "" → (aplicar_edicao tm inp t).quantidade = t.quantidade) ∧
    ((pyStrip inp.prazo) = "" → (aplicar_edicao tm inp t).prazo = t.prazo) ∧
    (aplicar_edicao tm inp t).concluida
      = ((pyLower (pyStrip inp.concluir)) == "s" || (pyLower (pyStrip inp.concluir)) == "sim") := by
  refine ⟨?_, ?_, ?_, ?_, ?_⟩
  · intro h
    simp [aplicar_edicao, edita_titulo_keep h]
  · intro h
    simp [aplicar_edicao, edita_descricao_keep h]
  · intro h
    simp [aplicar_edicao, edita_quantidade_keep h]
  · intro h
    simp [aplicar_edicao, edita_prazo_keep_empty h]
  · simp [aplicar_edicao, edita_concluida]

/-- Witness for C7: all-empty field answers with an affirmative completion
answer keep every field and set completion to true. -/
theorem C7_edit_fields_witness :
    (aplicar_edicao tmFix ⟨"", "", "", "", "sim"⟩ tarefaB).titulo = tarefaB.titulo ∧
    (aplicar_edicao tmFix ⟨"", "", "", "", "sim"⟩ tarefaB).descricao = tarefaB.descricao ∧
    (aplicar_edicao tmFix ⟨"", "", "", "", "sim"⟩ tarefaB).quantidade = tarefaB.quantidade ∧
    (aplicar_edicao tmFix ⟨"", "", "", "", "sim"⟩ tarefaB).prazo = tarefaB.prazo ∧
    (aplicar_edicao tmFix ⟨"", "", "", "", "sim"⟩ tarefaB).concluida = true := by
  have h := C7_edit_fields tmFix ⟨"", "", "", "", "sim"⟩ tarefaB
  exact ⟨h.1 (by decide), h.2.1 (by decide), h.2.2.1 (by decide), h.2.2.2.1 (by decide),
    h.2.2.2.2.trans (by decide)⟩

/-- C9: in the edit phase a non-empty deadline answer that fails to parse is
silently ignored — the task keeps its prior deadline and the edit still
completes, saving and reporting success with no validation failure — and no
edit input can ever turn a set deadline back into an unset one. -/
theorem C9_edit_deadline (tm : TimeModel) (inp : EditInputs) (t : Tarefa)
    (ts : List Tarefa) :
    ((pyStrip inp.prazo) ≠ "" → parse_prazo tm.strptime (pyStrip inp.prazo) = none →
       (aplicar_edicao tm inp t).prazo = t.prazo ∧
       (editar_rmw (aplicar_edicao tm inp t) ts).saved = true ∧
       (editar_rmw (aplicar_edicao tm inp t) ts).msgs = ["Tarefa atualizada."]) ∧
    (t.prazo ≠ none → (aplicar_edicao tm inp t).prazo ≠ none) := by
  constructor
  · intro h1 h2
    refine ⟨?_, rfl, rfl⟩
    simp [aplicar_edicao, edita_prazo_keep_unparsed h1 h2]
  · intro h
    unfold aplicar_edicao
    rw [edita_concluida_prazo]
    apply edita_prazo_ne_none
    simpa using h

/-- Witness for C9: the unparseable deadline answer `xx` leaves task A's set
deadline in place and the edit still saves. -/
theorem C9_edit_deadline_witness :
    (aplicar_edicao tmFix ⟨"", "", "", "xx", "n"⟩ tarefaA).prazo = tarefaA.prazo ∧
    (editar_rmw (aplicar_edicao tmFix ⟨"", "", "", "xx", "n"⟩ tarefaA) []).saved = true ∧
    (aplicar_edicao tmFix ⟨"", "", "", "xx", "n"⟩ tarefaA).prazo ≠ none := by
  have h := C9_edit_deadline tmFix ⟨"", "", "", "xx", "n"⟩ tarefaA []
  exact ⟨(h.1 (by decide) (by decide)).1, (h.1 (by decide) (by decide)).2.1,
    h.2 (by decide)⟩

/-- C10: in the edit phase, a non-empty quantity answer that is not a digit
string resets the quantity to unset; a digit string stores the parsed
non-negative integer; only an empty answer keeps the current value. -/
theorem C10_edit_quantity (tm : TimeModel) (inp : EditInputs) (t : Tarefa) :
    ((pyStrip inp.qtd) ≠ "" → pyIsDigit (pyStrip inp.qtd) = false →
       (aplicar_edicao tm inp t).quantidade = none) ∧
    (pyIsDigit (pyStrip inp.qtd) = true →
       (aplicar_edicao tm inp t).quantidade = some (pyInt (pyStrip inp.qtd)) ∧
       0 ≤ pyInt (pyStrip inp.qtd)) ∧
    ((pyStrip inp.qtd) = "" → (aplicar_edicao tm inp t).quantidade = t.quantidade) := by
  refine ⟨?_, ?_, ?_⟩
  · intro h1 h2
    simp [aplicar_edicao, edita_quantidade_invalid h1 h2]
  · intro h
    constructor
    · simp [aplicar_edicao, edita_quantidade_digit h]
    · unfold pyInt
      exact Int.natCast_nonneg _
  · intro h
    simp [aplicar_edicao, edita_quantidade_keep h]

/-- Witness for C10: answers `12`, `abc`, and the empty string on the same
task. -/
theorem C10_edit_quantity_witness :
    (aplicar_edicao tmFix ⟨"", "", "abc", "", "n"⟩ tarefaB).quantidade = none ∧
    (aplicar_edicao tmFix ⟨"", "", "12", "", "n"⟩ tarefaB).quantidade = some 12 ∧
    (aplicar_edicao tmFix ⟨"", "", "", "", "n"⟩ tarefaB).quantidade = tarefaB.quantidade := by
  refine ⟨(C10_edit_quantity tmFix ⟨"", "", "abc", "", "n"⟩ tarefaB).1
      (by decide) (by decide), ?_, ?_⟩
  · exact ((C10_edit_quantity tmFix ⟨"", "", "12", "", "n"⟩ tarefaB).2.1 (by decide)).1.trans
      (by decide)
  · exact (C10_edit_quantity tmFix ⟨"", "", "", "", "n"⟩ tarefaB).2.2 (by decide)

/-- Under unique ids, a shared id forces equality of collection members. -/
theorem nodup_id_eq {ts : List Tarefa} (hnd : (ts.map Tarefa.id).Nodup) :
    ∀ t1 ∈ ts, ∀ t2 ∈ ts, t1.id = t2.id → t1 = t2 := by
  induction ts with
  | nil => simp
  | cons a l ih =>
    simp only [List.map_cons, List.nodup_cons] at hnd
    intro t1 h1 t2 h2 he
    rcases List.mem_cons.mp h1 with he1 | h1
    · rcases List.mem_cons.mp h2 with he2 | h2
      · rw [he1, he2]
      · exfalso
        have hm : t2.id ∈ List.map Tarefa.id l := List.mem_map_of_mem Tarefa.id h2
        rw [← he, he1] at hm
        exact hnd.1 hm
    · rcases List.mem_cons.mp h2 with he2 | h2
      · exfalso
        have hm : t1.id ∈ List.map Tarefa.id l := List.mem_map_of_mem Tarefa.id h1
        rw [he, he2] at hm
        exact hnd.1 hm
      · exact ih hnd.2 t1 h1 t2 h2 he

/-- Any member of the replaced collection is an old member or the
replacement. -/
theorem mem_substituir {t y : Tarefa} {ts : List Tarefa}
    (h : y ∈ substituir t ts) : y ∈ ts ∨ y = t := by
  induction ts with
  | nil => simp [substituir] at h
  | cons x rest ih =>
    simp only [substituir] at h
    split at h
    · rcases List.mem_cons.mp h with rfl | h
      · exact Or.inr rfl
      · exact Or.inl (List.mem_cons_of_mem x h)
    · rcases List.mem_cons.mp h with rfl | h
      · exact Or.inl (List.mem_cons_self y rest)
      · rcases ih h with h | h
        · exact Or.inl (List.mem_cons_of_mem x h)
        · exact Or.inr h

/-- Any member of the toggled collection is an old member or the toggled
form of an old member carrying the selected id. -/
theorem mem_marcar {tid : String} {y : Tarefa} {ts : List Tarefa}
    (h : y ∈ (marcar_rmw tid ts).tarefas) :
    y ∈ ts ∨ ∃ x, x ∈ ts ∧ x.id = tid ∧ y = { x with concluida := !x.concluida } := by
  induction ts with
  | nil => simp [marcar_rmw] at h
  | cons x rest ih =>
    simp only [marcar_rmw] at h
    split at h
    · rcases List.mem_cons.mp h with rfl | h
      · exact Or.inr ⟨x, List.mem_cons_self x rest, by assumption, rfl⟩
      · exact Or.inl (List.mem_cons_of_mem x h)
    · rcases List.mem_cons.mp h with rfl | h
      · exact Or.inl (List.mem_cons_self y rest)
      · rcases ih h with h | ⟨z, hz, hzid, rfl⟩
        · exact Or.inl (List.mem_cons_of_mem x h)
        · exact Or.inr ⟨z, List.mem_cons_of_mem x hz, hzid, rfl⟩

/-- Any member of the accumulated collection is an old member or the
updated form of an old member carrying the selected id. -/
theorem mem_acumular {tid : String} {dur : Int} {y : Tarefa} {ts : List Tarefa}
    (h : y ∈ (acumular tid dur ts).tarefas) :
    y ∈ ts ∨ ∃ x, x ∈ ts ∧ x.id = tid ∧
      y = { x with ultimo_tempo_seg := dur,
                   total_tempo_seg := x.total_tempo_seg + dur } := by
  induction ts with
  | nil => simp [acumular] at h
  | cons x rest ih =>
    simp only [acumular] at h
    split at h
    · rcases List.mem_cons.mp h with rfl | h
      · exact Or.inr ⟨x, List.mem_cons_self x rest, by assumption, rfl⟩
      · exact Or.inl (List.mem_cons_of_mem x h)
    · rcases List.mem_cons.mp h with rfl | h
      · exact Or.inl (List.mem_cons_self y rest)
      · rcases ih h with h | ⟨z, hz, hzid, rfl⟩
        · exact Or.inl (List.mem_cons_of_mem x h)
        · exact Or.inr ⟨z, List.mem_cons_of_mem x hz, hzid, rfl⟩

/-- C6: across every single core operation (Create with a fresh id, Edit of
a selected member, Delete, Toggle-Complete, the expiry sweep, and timer
accumulation of a non-negative duration), any task present before and after
the operation — matched by its unique id — never sees its
`total_tempo_seg` decrease. -/
theorem C6_total_monotone (op : Op) (ts : List Tarefa)
    (hnd : (ts.map Tarefa.id).Nodup) (hwf : op.wf ts) :
    ∀ t2 ∈ op.apply ts, ∀ t1 ∈ ts, t1.id = t2.id →
      t1.total_tempo_seg ≤ t2.total_tempo_seg := by
  intro t2 h2 t1 h1 hid
  cases op with
  | criar nova =>
    simp only [Op.apply, List.mem_append, List.mem_singleton] at h2
    rcases h2 with h2 | rfl
    · rw [nodup_id_eq hnd t1 h1 t2 h2 hid]
    · exact absurd (hid ▸ List.mem_map_of_mem Tarefa.id h1) hwf
  | editar tm inp sel =>
    simp only [Op.apply, editar_rmw] at h2
    rcases mem_substituir h2 with h2 | rfl
    · rw [nodup_id_eq hnd t1 h1 t2 h2 hid]
    · have hsel : t1 = sel := by
        refine nodup_id_eq hnd t1 h1 sel hwf ?_
        rw [hid, aplicar_edicao_id]
      rw [hsel, ← aplicar_edicao_total tm inp sel]
  | excluir sel =>
    simp only [Op.apply, excluir_rmw] at h2
    have h2m : t2 ∈ ts := (List.mem_filter.mp h2).1
    rw [nodup_id_eq hnd t1 h1 t2 h2m hid]
  | marcar sel =>
    simp only [Op.apply] at h2
    rcases mem_marcar h2 with h2 | ⟨x, hx, hxid, rfl⟩
    · rw [nodup_id_eq hnd t1 h1 t2 h2 hid]
    · have ht1 : t1 = x := nodup_id_eq hnd t1 h1 x hx (by simpa using hid)
      rw [ht1]
  | varrer tm agora =>
    simp only [Op.apply] at h2
    have h2m : t2 ∈ ts := stored_subset tm agora ts t2 h2
    rw [nodup_id_eq hnd t1 h1 t2 h2m hid]
  | cronometrar sel dur =>
    simp only [Op.apply] at h2
    rcases mem_acumular h2 with h2 | ⟨x, hx, hxid, rfl⟩
    · rw [nodup_id_eq hnd t1 h1 t2 h2 hid]
    · have ht1 : t1 = x := nodup_id_eq hnd t1 h1 x hx (by simpa using hid)
      rw [ht1]
      show x.total_tempo_seg ≤ x.total_tempo_seg + dur
      exact le_add_of_nonneg_right hwf

/-- Witness for C6: a 3-second accumulation on the concrete collection
leaves the task's total no smaller. -/
theorem C6_total_monotone_witness :
    tarefaB.total_tempo_seg
      ≤ ({ tarefaB with ultimo_tempo_seg := 3, total_tempo_seg := 3 } : Tarefa).total_tempo_seg := by
  have h := C6_total_monotone (Op.cronometrar tarefaB 3) [tarefaB]
    (by decide) (show (0 : Int) ≤ 3 by decide)
  refine h { tarefaB with ultimo_tempo_seg := 3, total_tempo_seg := 3 } ?_ tarefaB ?_ ?_
  · show _ ∈ (acumular tarefaB.id 3 [tarefaB]).tarefas
    decide
  · decide
  · decide
